import Mathlib

/-!
Verification of the benchmarking harness `src/demo/benchmark_optimization.py`
(class `MetaPromptBenchmark`).

Strings are modelled as lists of Unicode code points (`List Char`), matching
Python's `str` semantics (indexing, length and slicing are by code point).
Python floats are modelled by exact rationals `ℚ`: every numeric claim below
is about the algebraic formula computed, not about rounding.  Filesystem and
subprocess effects are modelled by explicit environment records passed to the
embedded functions.
-/

namespace BenchmarkOptimization

/-! ## Character classes

`_sanitize_filename` uses the Python regex `[^\w\-_.]`, and
`_validate_parameters` uses `^[a-zA-Z0-9_-]+$`, both applied to `str`.
Python's `\w` on `str` matches Unicode word characters.  We model the ASCII
range exactly (`[A-Za-z0-9_]`, code points 65–90, 97–122, 48–57, 95) and, of
the non-ASCII range, the Latin-1 Supplement letters (code points 0xC0–0xFF
except `×` 0xD7 and `÷` 0xF7), which Python likewise classifies as word
characters.  Other non-ASCII characters (some of which Python also treats as
word characters, e.g. CJK letters) are not modelled; no theorem below depends
on the classification of a character outside this fragment — theorems about
the character set of sanitizer output restrict their input to ASCII, and the
idempotence proof never inspects the word predicate beyond ASCII. -/

/-- Python regex `\w` (word character), modelled on ASCII plus the Latin-1
Supplement letter block; see the note above. -/
def pythonWordChar (c : Char) : Bool :=
  (65 ≤ c.toNat && c.toNat ≤ 90)      -- A–Z
  || (97 ≤ c.toNat && c.toNat ≤ 122)  -- a–z
  || (48 ≤ c.toNat && c.toNat ≤ 57)   -- 0–9
  || c.toNat == 95                    -- _
  || (192 ≤ c.toNat && c.toNat ≤ 255 && !(c.toNat == 215) && !(c.toNat == 247))

/-- A character the regex `[^\w\-_.]` of `_sanitize_filename` does NOT
replace: word characters and `-`, `_`, `.` (the literal members of the class). -/
def keptChar (c : Char) : Bool :=
  pythonWordChar c || c.toNat == 45 || c.toNat == 95 || c.toNat == 46

/-- The character set `[A-Za-z0-9_.-]` named by the specification for
sanitizer output. -/
def allowedChar (c : Char) : Bool :=
  (65 ≤ c.toNat && c.toNat ≤ 90)
  || (97 ≤ c.toNat && c.toNat ≤ 122)
  || (48 ≤ c.toNat && c.toNat ≤ 57)
  || c.toNat == 95 || c.toNat == 46 || c.toNat == 45

/-- `MetaPromptBenchmark._sanitize_filename`:
`safe_name = re.sub(r'[^\w\-_.]', '_', filename)`;
`safe_name = safe_name.lstrip('.')`;
`if not safe_name: safe_name = "unnamed"`;
`return safe_name[:50]`. -/
def _sanitize_filename (s : List Char) : List Char :=
  let replaced := s.map (fun c => if keptChar c then c else '_')
  let stripped := replaced.dropWhile (fun c => c == '.')
  let ensured := if stripped.isEmpty then "unnamed".data else stripped
  ensured.take 50

/-! ### Sanitizer helper lemmas -/

lemma keptChar_underscore : keptChar '_' = true := by decide

lemma mem_unnamed_kept {c : Char} (h : c ∈ "unnamed".data) : keptChar c = true := by
  have hu : "unnamed".data = ['u', 'n', 'n', 'a', 'm', 'e', 'd'] := rfl
  rw [hu] at h
  simp only [List.mem_cons, List.not_mem_nil, or_false] at h
  rcases h with rfl | rfl | rfl | rfl | rfl | rfl | rfl <;> decide

/-- Every character of the sanitizer's output is kept by the regex class. -/
lemma sanitize_all_kept {c : Char} {s : List Char}
    (h : c ∈ _sanitize_filename s) : keptChar c = true := by
  unfold _sanitize_filename at h
  simp only at h
  have h' := List.take_subset 50 _ h
  by_cases he : (((s.map (fun c => if keptChar c then c else '_')).dropWhile
      (fun c => c == '.'))).isEmpty
  · rw [if_pos he] at h'
    exact mem_unnamed_kept h'
  · rw [if_neg he] at h'
    have h'' := (List.dropWhile_sublist (fun c => c == '.')).subset h'
    rcases List.mem_map.mp h'' with ⟨a, _, ha⟩
    by_cases hk : keptChar a
    · rw [if_pos hk] at ha
      rw [← ha]; exact hk
    · rw [if_neg hk] at ha
      rw [← ha]
      exact keptChar_underscore

/-- The head of `dropWhile p l`, when it exists, fails `p`. -/
lemma head_dropWhile_false {α : Type} (p : α → Bool) :
    ∀ (l : List α) {c : α} {t : List α}, l.dropWhile p = c :: t → p c = false := by
  intro l
  induction l with
  | nil => intro c t h; simp [List.dropWhile] at h
  | cons a l ih =>
    intro c t h
    rw [List.dropWhile_cons] at h
    by_cases hp : p a
    · rw [if_pos hp] at h; exact ih h
    · rw [if_neg hp] at h
      cases h
      exact Bool.of_not_eq_true hp

/-- The sanitizer's output is nonempty and does not start with `'.'`. -/
lemma sanitize_ne_nil_head (s : List Char) :
    _sanitize_filename s ≠ [] ∧ (_sanitize_filename s).head? ≠ some '.' := by
  unfold _sanitize_filename
  simp only
  rcases hcons : ((s.map (fun c => if keptChar c then c else '_')).dropWhile
      (fun c => c == '.')) with _ | ⟨c, t⟩
  · decide
  · have hc : (c == '.') = false := head_dropWhile_false (fun c => c == '.') _ hcons
    have hcne : c ≠ '.' := by
      intro hcc; rw [hcc] at hc; simp at hc
    simp only [List.isEmpty_cons, Bool.false_eq_true, if_false, List.take_succ_cons]
    refine ⟨by simp, ?_⟩
    simp [hcne]

/-- The sanitizer's output has length at most 50. -/
lemma sanitize_length_le (s : List Char) : (_sanitize_filename s).length ≤ 50 := by
  unfold _sanitize_filename
  exact List.length_take_le 50 _

/-- The `[:50]` slice of a nonempty list keeps its head. -/
lemma sanitize_head_kept {s : List Char} :
    ∀ c ∈ _sanitize_filename s, keptChar c = true :=
  fun _ h => sanitize_all_kept h

/-- A list all of whose characters are kept is fixed by the replacement map. -/
lemma map_kept_id {t : List Char} (h : ∀ c ∈ t, keptChar c = true) :
    t.map (fun c => if keptChar c then c else '_') = t := by
  induction t with
  | nil => rfl
  | cons a t ih =>
    have ha := h a (List.mem_cons_self a t)
    simp only [List.map_cons, if_pos ha, List.cons.injEq, true_and]
    exact ih fun c hc => h c (List.mem_cons_of_mem a hc)

/-- Sanitizing a list that is already a sanitizer output (nonempty, not
headed by `'.'`, all characters kept, length ≤ 50) returns it unchanged. -/
lemma sanitize_fixed {t : List Char}
    (hkept : ∀ c ∈ t, keptChar c = true)
    (hnil : t ≠ []) (hhead : t.head? ≠ some '.')
    (hlen : t.length ≤ 50) :
    _sanitize_filename t = t := by
  unfold _sanitize_filename
  simp only
  rw [map_kept_id hkept]
  rcases t with _ | ⟨c, t'⟩
  · exact absurd rfl hnil
  · have hcne : (c == '.') = false := by
      simp only [List.head?_cons, ne_eq, Option.some.injEq] at hhead
      simp [hhead]
    rw [List.dropWhile_cons, hcne]
    simp only [Bool.false_eq_true, if_false, List.isEmpty_cons]
    exact List.take_of_length_le hlen

/-- Claim C2: The filename sanitizer is idempotent:
`sanitize(sanitize(s)) == sanitize(s)` for every input string `s`. -/
theorem sanitize_idempotent (s : List Char) :
    _sanitize_filename (_sanitize_filename s) = _sanitize_filename s :=
  sanitize_fixed sanitize_head_kept
    (sanitize_ne_nil_head s).1 (sanitize_ne_nil_head s).2 (sanitize_length_le s)

/-- An ASCII character kept by the sanitizer's regex class lies in the
specification's character set `[A-Za-z0-9_.-]`. -/
lemma ascii_kept_allowed {c : Char} (hlt : c.toNat < 128)
    (hk : keptChar c = true) : allowedChar c = true := by
  unfold keptChar pythonWordChar at hk
  unfold allowedChar
  simp only [Bool.or_eq_true, Bool.and_eq_true, beq_iff_eq, decide_eq_true_eq,
    Bool.not_eq_true', beq_eq_false_iff_ne, ne_eq] at hk ⊢
  omega

/-- Claim C1, amended: For every input string `s`, `sanitize(s)` has length at
most 50, is non-empty, and does not start with `'.'`; and when every
character of `s` is ASCII, the result contains only characters from
`[A-Za-z0-9_.-]`.  (For non-ASCII input the result may retain non-ASCII
Unicode word characters; see `sanitize_unicode_counterexample`.) -/
theorem sanitize_spec (s : List Char) :
    (_sanitize_filename s).length ≤ 50 ∧
    _sanitize_filename s ≠ [] ∧
    (_sanitize_filename s).head? ≠ some '.' ∧
    (s.all (fun c => c.toNat < 128) = true →
      (_sanitize_filename s).all allowedChar = true) := by
  refine ⟨sanitize_length_le s, (sanitize_ne_nil_head s).1,
    (sanitize_ne_nil_head s).2, fun hascii => ?_⟩
  rw [List.all_eq_true] at hascii ⊢
  intro c hc
  have hkept := sanitize_all_kept hc
  -- `c` is either a character of `s` (hence ASCII), `'_'`, or a letter of
  -- the placeholder `"unnamed"`; in every case it is ASCII.
  have hcascii : c.toNat < 128 := by
    unfold _sanitize_filename at hc
    simp only at hc
    have h' := List.take_subset 50 _ hc
    by_cases he : (((s.map (fun c => if keptChar c then c else '_')).dropWhile
        (fun c => c == '.'))).isEmpty
    · rw [if_pos he] at h'
      simp only [List.mem_cons, List.not_mem_nil, or_false] at h'
      rcases h' with rfl | rfl | rfl | rfl | rfl | rfl | rfl <;> decide
    · rw [if_neg he] at h'
      have h'' := (List.dropWhile_sublist (fun c => c == '.')).subset h'
      rcases List.mem_map.mp h'' with ⟨a, hmem, ha⟩
      by_cases hk : keptChar a
      · rw [if_pos hk] at ha
        rw [← ha]
        exact decide_eq_true_eq.mp (hascii a hmem)
      · rw [if_neg hk] at ha
        rw [← ha]; decide
  exact ascii_kept_allowed hcascii hkept

/-- Witness for `sanitize_spec` at the path-traversal input `"../etc/passwd"`:
the hypothesis (all characters ASCII) is discharged by computation, and the
output is the 12-character safe name `"._etc_passwd"` stripped of its leading
dots, i.e. all four conclusions hold concretely. -/
theorem sanitize_spec_witness :
    (_sanitize_filename ("../etc/passwd".data)).length ≤ 50 ∧
    _sanitize_filename ("../etc/passwd".data) ≠ [] ∧
    (_sanitize_filename ("../etc/passwd".data)).head? ≠ some '.' ∧
    (_sanitize_filename ("../etc/passwd".data)).all allowedChar = true := by
  have h := sanitize_spec ("../etc/passwd".data)
  exact ⟨h.1, h.2.1, h.2.2.1, h.2.2.2 (by decide)⟩

/-- Claim C1, counterexample: The claim "for every input string `s`,
`sanitize(s)` contains only characters from `[A-Za-z0-9_.-]`" fails at the
one-character input `"é"` (U+00E9): Python's `\w` matches `é`, so the
sanitizer returns `"é"` unchanged, and `é` is not in `[A-Za-z0-9_.-]`. -/
theorem sanitize_unicode_counterexample :
    _sanitize_filename ['é'] = ['é'] ∧ allowedChar 'é' = false := by
  constructor <;> decide

/-! ## Parameter validation (`_validate_parameters`) and the runner
(`run_optimization`)

The filesystem and the spawned subprocess are external effects; they are
modelled by explicit records (`InputFile`, `SubprocessEnv`) supplied to the
embedded functions.  `run_optimization` in the source returns a Python dict
whose key set differs per branch; the embedding uses a fixed record with
`Option` fields, where `none` models an absent key. -/

/-- File statistics as returned by `get_file_stats`. -/
structure FileStats where
  size : Nat
  lines : Nat
  chars : Nat
deriving DecidableEq, Repr

/-- `get_file_stats`: zero-valued stats when the path does not exist,
otherwise a snapshot of the file. -/
def get_file_stats (existsOnDisk : Bool) (statsOnDisk : FileStats) : FileStats :=
  if existsOnDisk then statsOnDisk else ⟨0, 0, 0⟩

/-- The model of an input path handed to `run_optimization`: its textual
path, its stem, and its state on disk. -/
structure InputFile where
  path : String
  stem : String
  existsOnDisk : Bool
  isRegularFile : Bool
  statsOnDisk : FileStats
deriving DecidableEq, Repr

/-- Captured result of a subprocess that terminated within the timeout. -/
structure SubprocessResult where
  returncode : Int
  stdout : String
  stderr : String
deriving DecidableEq, Repr

/-- How the spawned subprocess behaves: it either completes (with captured
exit code and output) or exceeds the 30-second timeout. -/
inductive SubprocessBehavior where
  | completes : SubprocessResult → SubprocessBehavior
  | timesOut : SubprocessBehavior
deriving DecidableEq, Repr

/-- Environment for one subprocess invocation: its behavior, the wall-clock
time observed when it completes, and the state of the output file after it
ran. -/
structure SubprocessEnv where
  behavior : SubprocessBehavior
  elapsed : ℚ
  outputExistsAfter : Bool
  outputStatsAfter : FileStats
deriving DecidableEq, Repr

/-- The metrics dict built by `run_optimization`.  `none` in `stdout`,
`stderr`, `error`, `output_stats` models the corresponding key being absent
from the returned dict. -/
structure Outcome where
  success : Bool
  execution_time : ℚ
  stdout : Option String
  stderr : Option String
  error : Option String
  mode : String
  goal : String
  domain : String
  output_stats : Option FileStats
deriving DecidableEq, Repr

/-- Return value of `run_optimization` together with its observable side
effects: whether a subprocess was spawned and, if so, the output-file path
placed in the command vector. -/
structure RunResult where
  outcome : Outcome
  spawned : Bool
  output_file : Option String
deriving DecidableEq, Repr

/-- `valid_modes` from `_validate_parameters`. -/
def valid_modes : List String := ["LOCAL_ONLY", "CACHED_LLM", "FULL_LLM", "ASYNC_LLM"]

/-- `valid_goals` from `_validate_parameters`. -/
def valid_goals : List String :=
  ["REDUCE_TOKENS", "IMPROVE_ACCURACY", "BALANCED", "DOMAIN_SPECIFIC"]

/-- A character of the regex class `[a-zA-Z0-9_-]`. -/
def domainClassChar (c : Char) : Bool :=
  (97 ≤ c.toNat && c.toNat ≤ 122)
  || (65 ≤ c.toNat && c.toNat ≤ 90)
  || (48 ≤ c.toNat && c.toNat ≤ 57)
  || c.toNat == 95 || c.toNat == 45

/-- `re.match(r'^[a-zA-Z0-9_-]+$', s)` succeeds.  In Python, `$` also
matches just before a newline that ends the string, so a trailing `'\n'` is
tolerated; the class characters themselves must form a nonempty run. -/
def pyMatchDomain (s : List Char) : Bool :=
  let core := if s.getLast? = some '\n' then s.dropLast else s
  !core.isEmpty && core.all domainClassChar

/-- `MetaPromptBenchmark._validate_parameters`: returns the message of the
first failing check (the source raises `ValueError(msg)`, which
`run_optimization` catches), or `none` when every check passes.  Order:
file existence, file type, mode, goal, domain pattern, domain length. -/
def _validate_parameters (f : InputFile) (mode goal domain : String) :
    Option String :=
  if !f.existsOnDisk then
    some ("Input file does not exist: " ++ f.path)
  else if !f.isRegularFile then
    some ("Input path is not a file: " ++ f.path)
  else if !(valid_modes.contains mode) then
    some ("Invalid mode '" ++ mode ++ "'. Must be one of: "
      ++ String.intercalate ", " valid_modes)
  else if !(valid_goals.contains goal) then
    some ("Invalid goal '" ++ goal ++ "'. Must be one of: "
      ++ String.intercalate ", " valid_goals)
  else if !(pyMatchDomain domain.data) then
    some ("Invalid domain '" ++ domain
      ++ "'. Only alphanumeric characters, underscore, and hyphen allowed")
  else if domain.length > 64 then
    some ("Domain name too long: " ++ toString domain.length
      ++ " characters (max 64)")
  else
    none

/-- The output path `run_optimization` builds:
`self.demo_dir / "temp" / f"optimized_{safe_filename}.txt"` where
`safe_filename = self._sanitize_filename(input_file.stem)`. -/
def output_file_path (demo_dir : String) (f : InputFile) : String :=
  demo_dir ++ "/temp/optimized_" ++ String.mk (_sanitize_filename f.stem.data) ++ ".txt"

/-- `MetaPromptBenchmark.run_optimization`.  On a validation error the
caught message is returned as a failure dict and no subprocess runs; on
timeout (`subprocess.TimeoutExpired`) a failure dict with
`execution_time = 30.0` is returned; on completion the captured exit code,
stdout and stderr are recorded, `success = (returncode == 0)`, and
`output_stats` is attached when `returncode == 0` and the output file
exists. -/
def run_optimization (demo_dir : String) (f : InputFile)
    (mode goal domain : String) (sub : SubprocessEnv) : RunResult :=
  match _validate_parameters f mode goal domain with
  | some msg =>
    { outcome := { success := false, execution_time := 0, stdout := none,
                   stderr := none, error := some msg, mode := mode,
                   goal := goal, domain := domain, output_stats := none },
      spawned := false, output_file := none }
  | none =>
    let out := output_file_path demo_dir f
    match sub.behavior with
    | .completes r =>
      { outcome := { success := r.returncode == 0, execution_time := sub.elapsed,
                     stdout := some r.stdout, stderr := some r.stderr,
                     error := none, mode := mode, goal := goal, domain := domain,
                     output_stats :=
                       if r.returncode == 0 && sub.outputExistsAfter then
                         some (get_file_stats sub.outputExistsAfter sub.outputStatsAfter)
                       else none },
        spawned := true, output_file := some out }
    | .timesOut =>
      { outcome := { success := false, execution_time := 30, stdout := none,
                     stderr := none, error := some "Timeout", mode := mode,
                     goal := goal, domain := domain, output_stats := none },
        spawned := true, output_file := some out }

/-! ### Concrete fixtures used by witnesses and counterexamples -/

/-- A well-formed discovered input file. -/
def sampleFile : InputFile :=
  { path := "demo/examples/sample.llm", stem := "sample",
    existsOnDisk := true, isRegularFile := true,
    statsOnDisk := ⟨1000, 10, 1000⟩ }

/-- A subprocess environment in which the process exceeds the timeout. -/
def timeoutEnv : SubprocessEnv :=
  { behavior := .timesOut, elapsed := 0,
    outputExistsAfter := false, outputStatsAfter := ⟨0, 0, 0⟩ }

/-- A subprocess environment in which the process exits 0 after 2 seconds
and writes a 600-character output file. -/
def okEnv : SubprocessEnv :=
  { behavior := .completes ⟨0, "metrics", ""⟩, elapsed := 2,
    outputExistsAfter := true, outputStatsAfter := ⟨600, 5, 600⟩ }

/-! ### Claims about `run_optimization` -/

/-- When validation passes, the runner spawns the subprocess and its
command vector names the sanitized output path, in both the completion and
the timeout case. -/
lemma run_output_file_of_valid (demo_dir : String) (f : InputFile)
    (mode goal domain : String) (sub : SubprocessEnv)
    (hv : _validate_parameters f mode goal domain = none) :
    (run_optimization demo_dir f mode goal domain sub).output_file
      = some (output_file_path demo_dir f) ∧
    (run_optimization demo_dir f mode goal domain sub).spawned = true := by
  unfold run_optimization
  rw [hv]
  rcases sub.behavior with r | _ <;> exact ⟨rfl, rfl⟩

/-- Claim C5: On a validation failure `run_optimization` returns an outcome
with `success = false`, `execution_time = 0` and `error` equal to the
validation message, spawns no subprocess, and its result does not depend on
the subprocess environment at all. -/
theorem run_optimization_validation_failure (demo_dir : String) (f : InputFile)
    (mode goal domain msg : String) (sub : SubprocessEnv)
    (h : _validate_parameters f mode goal domain = some msg) :
    (run_optimization demo_dir f mode goal domain sub).spawned = false ∧
    (run_optimization demo_dir f mode goal domain sub).outcome.success = false ∧
    (run_optimization demo_dir f mode goal domain sub).outcome.execution_time = 0 ∧
    (run_optimization demo_dir f mode goal domain sub).outcome.error = some msg ∧
    (∀ sub' : SubprocessEnv,
      run_optimization demo_dir f mode goal domain sub'
        = run_optimization demo_dir f mode goal domain sub) := by
  refine ⟨?_, ?_, ?_, ?_, fun sub' => ?_⟩ <;>
    · unfold run_optimization
      rw [h]

/-- Witness for `run_optimization_validation_failure`: the invalid mode
`"TURBO"` against an existing regular file; the validator's message is
reported verbatim and no subprocess runs. -/
theorem run_optimization_validation_failure_witness :
    (run_optimization "demo" sampleFile "TURBO" "BALANCED" "software" timeoutEnv).spawned
      = false ∧
    (run_optimization "demo" sampleFile "TURBO" "BALANCED" "software" timeoutEnv).outcome.success
      = false ∧
    (run_optimization "demo" sampleFile "TURBO" "BALANCED" "software" timeoutEnv).outcome.execution_time
      = 0 ∧
    (run_optimization "demo" sampleFile "TURBO" "BALANCED" "software" timeoutEnv).outcome.error
      = some "Invalid mode 'TURBO'. Must be one of: LOCAL_ONLY, CACHED_LLM, FULL_LLM, ASYNC_LLM" := by
  have h := run_optimization_validation_failure "demo" sampleFile "TURBO" "BALANCED"
    "software" "Invalid mode 'TURBO'. Must be one of: LOCAL_ONLY, CACHED_LLM, FULL_LLM, ASYNC_LLM"
    timeoutEnv (by decide)
  exact ⟨h.1, h.2.1, h.2.2.1, h.2.2.2.1⟩

/-- Claim C4: When validation passes and the spawned subprocess exceeds the
timeout, the outcome has `success = false`, `error = "Timeout"` and
`execution_time` exactly `30.0`. -/
theorem run_optimization_timeout (demo_dir : String) (f : InputFile)
    (mode goal domain : String) (sub : SubprocessEnv)
    (hv : _validate_parameters f mode goal domain = none)
    (ht : sub.behavior = .timesOut) :
    (run_optimization demo_dir f mode goal domain sub).outcome.success = false ∧
    (run_optimization demo_dir f mode goal domain sub).outcome.error = some "Timeout" ∧
    (run_optimization demo_dir f mode goal domain sub).outcome.execution_time = 30 := by
  refine ⟨?_, ?_, ?_⟩ <;>
    · unfold run_optimization
      rw [hv, ht]

/-- Witness for `run_optimization_timeout`: a valid configuration against
`sampleFile` with a timing-out subprocess. -/
theorem run_optimization_timeout_witness :
    (run_optimization "demo" sampleFile "LOCAL_ONLY" "BALANCED" "software" timeoutEnv).outcome.success
      = false ∧
    (run_optimization "demo" sampleFile "LOCAL_ONLY" "BALANCED" "software" timeoutEnv).outcome.error
      = some "Timeout" ∧
    (run_optimization "demo" sampleFile "LOCAL_ONLY" "BALANCED" "software" timeoutEnv).outcome.execution_time
      = 30 :=
  run_optimization_timeout "demo" sampleFile "LOCAL_ONLY" "BALANCED" "software"
    timeoutEnv (by decide) rfl

/-- Claim C6: When validation passes and the subprocess completes within the
timeout, the runner returns normally whatever the exit code:
`success = (exit_code == 0)`, the captured stdout and stderr are recorded,
and `output_stats` is attached exactly when the exit code is 0 and the
output file exists (in which case it is that file's stats). -/
theorem run_optimization_completion (demo_dir : String) (f : InputFile)
    (mode goal domain : String) (sub : SubprocessEnv) (r : SubprocessResult)
    (hv : _validate_parameters f mode goal domain = none)
    (hc : sub.behavior = .completes r) :
    (run_optimization demo_dir f mode goal domain sub).outcome.success
      = (r.returncode == 0) ∧
    (run_optimization demo_dir f mode goal domain sub).outcome.stdout
      = some r.stdout ∧
    (run_optimization demo_dir f mode goal domain sub).outcome.stderr
      = some r.stderr ∧
    (run_optimization demo_dir f mode goal domain sub).outcome.execution_time
      = sub.elapsed ∧
    ((run_optimization demo_dir f mode goal domain sub).outcome.output_stats).isSome
      = (r.returncode == 0 && sub.outputExistsAfter) ∧
    ((r.returncode == 0 && sub.outputExistsAfter) = true →
      (run_optimization demo_dir f mode goal domain sub).outcome.output_stats
        = some (get_file_stats sub.outputExistsAfter sub.outputStatsAfter)) := by
  have hrun : run_optimization demo_dir f mode goal domain sub =
      { outcome := { success := r.returncode == 0, execution_time := sub.elapsed,
                     stdout := some r.stdout, stderr := some r.stderr,
                     error := none, mode := mode, goal := goal, domain := domain,
                     output_stats :=
                       if r.returncode == 0 && sub.outputExistsAfter then
                         some (get_file_stats sub.outputExistsAfter sub.outputStatsAfter)
                       else none },
        spawned := true, output_file := some (output_file_path demo_dir f) } := by
    unfold run_optimization
    rw [hv, hc]
  rw [hrun]
  refine ⟨rfl, rfl, rfl, rfl, ?_, ?_⟩
  · by_cases hcond : (r.returncode == 0 && sub.outputExistsAfter) = true
    · rw [if_pos hcond, hcond]; rfl
    · rw [if_neg hcond]
      simp only [Option.isSome_none]
      exact ((Bool.not_eq_true _).mp fun hx => hcond hx).symm
  · intro hcond
    rw [if_pos hcond]

/-- Witness for `run_optimization_completion`: a subprocess exiting 0 after
2 seconds that wrote a 600-character output file. -/
theorem run_optimization_completion_witness :
    (run_optimization "demo" sampleFile "LOCAL_ONLY" "BALANCED" "software" okEnv).outcome.success
      = true ∧
    (run_optimization "demo" sampleFile "LOCAL_ONLY" "BALANCED" "software" okEnv).outcome.stdout
      = some "metrics" ∧
    (run_optimization "demo" sampleFile "LOCAL_ONLY" "BALANCED" "software" okEnv).outcome.stderr
      = some "" ∧
    (run_optimization "demo" sampleFile "LOCAL_ONLY" "BALANCED" "software" okEnv).outcome.output_stats
      = some ⟨600, 5, 600⟩ := by
  have h := run_optimization_completion "demo" sampleFile "LOCAL_ONLY" "BALANCED"
    "software" okEnv ⟨0, "metrics", ""⟩ (by decide) rfl
  exact ⟨h.1, h.2.1, h.2.2.1, h.2.2.2.2.2 rfl⟩

/-- Claim C8, amended: Field shape of every outcome dict built by
`run_optimization`: a completed-subprocess outcome carries the full declared
shape including `stdout` and `stderr` strings; validation-failure and
timeout outcomes carry `success`, `execution_time`, `error`, `mode`, `goal`
and `domain` but omit the `stdout`/`stderr` (and `output_stats`) keys. -/
theorem run_optimization_outcome_shape (demo_dir : String) (f : InputFile)
    (mode goal domain : String) (sub : SubprocessEnv) :
    (∀ msg, _validate_parameters f mode goal domain = some msg →
      (run_optimization demo_dir f mode goal domain sub).outcome.stdout = none ∧
      (run_optimization demo_dir f mode goal domain sub).outcome.stderr = none ∧
      (run_optimization demo_dir f mode goal domain sub).outcome.error = some msg ∧
      (run_optimization demo_dir f mode goal domain sub).outcome.output_stats = none) ∧
    (_validate_parameters f mode goal domain = none → sub.behavior = .timesOut →
      (run_optimization demo_dir f mode goal domain sub).outcome.stdout = none ∧
      (run_optimization demo_dir f mode goal domain sub).outcome.stderr = none ∧
      (run_optimization demo_dir f mode goal domain sub).outcome.error = some "Timeout" ∧
      (run_optimization demo_dir f mode goal domain sub).outcome.output_stats = none) ∧
    (∀ r, _validate_parameters f mode goal domain = none → sub.behavior = .completes r →
      (run_optimization demo_dir f mode goal domain sub).outcome.stdout = some r.stdout ∧
      (run_optimization demo_dir f mode goal domain sub).outcome.stderr = some r.stderr ∧
      (run_optimization demo_dir f mode goal domain sub).outcome.error = none) := by
  refine ⟨fun msg h => ?_, fun hv ht => ?_, fun r hv hc => ?_⟩
  · refine ⟨?_, ?_, ?_, ?_⟩ <;> · unfold run_optimization; rw [h]
  · refine ⟨?_, ?_, ?_, ?_⟩ <;> · unfold run_optimization; rw [hv, ht]
  · refine ⟨?_, ?_, ?_⟩ <;> · unfold run_optimization; rw [hv, hc]

/-- Witness for `run_optimization_outcome_shape`: all three branches
instantiated concretely (invalid mode, timeout, completion). -/
theorem run_optimization_outcome_shape_witness :
    ((run_optimization "demo" sampleFile "TURBO" "BALANCED" "software" okEnv).outcome.stdout
      = none) ∧
    ((run_optimization "demo" sampleFile "LOCAL_ONLY" "BALANCED" "software" timeoutEnv).outcome.stdout
      = none) ∧
    ((run_optimization "demo" sampleFile "LOCAL_ONLY" "BALANCED" "software" okEnv).outcome.stdout
      = some "metrics") := by
  refine ⟨?_, ?_, ?_⟩
  · exact ((run_optimization_outcome_shape "demo" sampleFile "TURBO" "BALANCED" "software"
      okEnv).1 "Invalid mode 'TURBO'. Must be one of: LOCAL_ONLY, CACHED_LLM, FULL_LLM, ASYNC_LLM"
      (by decide)).1
  · exact ((run_optimization_outcome_shape "demo" sampleFile "LOCAL_ONLY" "BALANCED" "software"
      timeoutEnv).2.1 (by decide) rfl).1
  · exact ((run_optimization_outcome_shape "demo" sampleFile "LOCAL_ONLY" "BALANCED" "software"
      okEnv).2.2 ⟨0, "metrics", ""⟩ (by decide) rfl).1

/-- Claim C8, counterexample: The claim that every outcome record — including
the one synthesized for a timeout — contains a `stdout` string and a
`stderr` string is false: the timeout dict contains neither key. -/
theorem outcome_missing_stdout_counterexample :
    (run_optimization "demo" sampleFile "LOCAL_ONLY" "BALANCED" "software" timeoutEnv).outcome.stdout
      = none ∧
    (run_optimization "demo" sampleFile "LOCAL_ONLY" "BALANCED" "software" timeoutEnv).outcome.stderr
      = none := by
  constructor <;> decide

/-- Claim C10: The output path is a function of the input file's stem alone:
any two validated configurations against the same input file put the same
output path in their command vectors — all configurations of one file write
to one shared output file. -/
theorem output_path_stem_only (demo_dir : String) (f : InputFile)
    (m₁ g₁ d₁ m₂ g₂ d₂ : String) (s₁ s₂ : SubprocessEnv)
    (h₁ : _validate_parameters f m₁ g₁ d₁ = none)
    (h₂ : _validate_parameters f m₂ g₂ d₂ = none) :
    (run_optimization demo_dir f m₁ g₁ d₁ s₁).output_file
      = some (output_file_path demo_dir f) ∧
    (run_optimization demo_dir f m₂ g₂ d₂ s₂).output_file
      = some (output_file_path demo_dir f) ∧
    (run_optimization demo_dir f m₁ g₁ d₁ s₁).output_file
      = (run_optimization demo_dir f m₂ g₂ d₂ s₂).output_file ∧
    (∀ f' : InputFile, f'.stem = f.stem →
      output_file_path demo_dir f' = output_file_path demo_dir f) := by
  have e₁ := (run_output_file_of_valid demo_dir f m₁ g₁ d₁ s₁ h₁).1
  have e₂ := (run_output_file_of_valid demo_dir f m₂ g₂ d₂ s₂ h₂).1
  refine ⟨e₁, e₂, e₁.trans e₂.symm, fun f' hstem => ?_⟩
  unfold output_file_path
  rw [hstem]

/-- Witness for `output_path_stem_only`: two different validated
configurations (`BALANCED` vs `REDUCE_TOKENS`) against `sampleFile` share
the output path `demo/temp/optimized_sample.txt`. -/
theorem output_path_stem_only_witness :
    (run_optimization "demo" sampleFile "LOCAL_ONLY" "BALANCED" "software" okEnv).output_file
      = some "demo/temp/optimized_sample.txt" ∧
    (run_optimization "demo" sampleFile "LOCAL_ONLY" "REDUCE_TOKENS" "software" timeoutEnv).output_file
      = some "demo/temp/optimized_sample.txt" := by
  have h := output_path_stem_only "demo" sampleFile "LOCAL_ONLY" "BALANCED" "software"
    "LOCAL_ONLY" "REDUCE_TOKENS" "software" okEnv timeoutEnv (by decide) (by decide)
  have hp : output_file_path "demo" sampleFile = "demo/temp/optimized_sample.txt" := by decide
  exact ⟨hp ▸ h.1, hp ▸ h.2.1⟩

/-! ## Report generation (`generate_report`)

The report's numeric content is embedded; the surrounding markdown text and
the timestamp are incidental rendering.  `benchmark_file` packages one
file's outcomes as a `FileResult`; `generate_report` folds over all results
exactly as the source's accumulation loop does. -/

/-- One `benchmark_file` record: the source path, the input's stats, and
the outcome dicts in configuration order. -/
structure FileResult where
  file : String
  original_stats : FileStats
  optimizations : List Outcome
deriving DecidableEq, Repr

/-- The per-row size-reduction figure of the detailed-results table:
`((original_size - optimized_size) / original_size) * 100 if original_size > 0
else 0`. -/
def row_size_reduction (original_size optimized_size : Nat) : ℚ :=
  if 0 < original_size then
    (((original_size : ℚ) - (optimized_size : ℚ)) / (original_size : ℚ)) * 100
  else 0

/-- One step of the executive-summary accumulation loop, for a file with
`orig` original characters: a successful outcome bumps the success count
and the time total, and — only if it carries `output_stats` and `orig > 0` —
appends its size reduction. -/
def summaryStep (orig : Nat) (acc : Nat × ℚ × List ℚ) (opt : Outcome) :
    Nat × ℚ × List ℚ :=
  if opt.success then
    match opt.output_stats with
    | some os =>
      if 0 < orig then
        (acc.1 + 1, acc.2.1 + opt.execution_time,
         acc.2.2 ++ [(((orig : ℚ) - (os.chars : ℚ)) / (orig : ℚ)) * 100])
      else (acc.1 + 1, acc.2.1 + opt.execution_time, acc.2.2)
    | none => (acc.1 + 1, acc.2.1 + opt.execution_time, acc.2.2)
  else acc

/-- The executive-summary accumulation loop of `generate_report`: success
count, total execution time over successes, and the collected size
reductions, in iteration order. -/
def summaryFold (results : List FileResult) : Nat × ℚ × List ℚ :=
  results.foldl
    (fun acc r => r.optimizations.foldl (summaryStep r.original_stats.chars) acc)
    (0, 0, [])

/-- The executive summary's five reported figures. -/
structure Summary where
  total_files : Nat
  successful_optimizations : Nat
  avg_execution_time : ℚ
  avg_size_reduction : ℚ
  success_rate : ℚ
deriving DecidableEq, Repr

/-- The executive summary of `generate_report`:
`avg_execution_time = total_execution_time / max(successful_optimizations, 1)`,
`avg_size_reduction = sum(size_reductions) / max(len(size_reductions), 1)`,
`success_rate = (successful_optimizations / max(total_files * 4, 1)) * 100`. -/
def generate_report_summary (results : List FileResult) : Summary :=
  let t := summaryFold results
  { total_files := results.length
    successful_optimizations := t.1
    avg_execution_time := t.2.1 / ((max t.1 1 : Nat) : ℚ)
    avg_size_reduction := t.2.2.sum / ((max t.2.2.length 1 : Nat) : ℚ)
    success_rate := ((t.1 : ℚ) / ((max (results.length * 4) 1 : Nat) : ℚ)) * 100 }

/-! ### What the summary actually averages over -/

/-- The successful outcomes of a result list, in iteration order. -/
def successList (results : List FileResult) : List Outcome :=
  results.flatMap (fun r => r.optimizations.filter (fun o => o.success))

/-- The contribution of one outcome to the summary's size-reduction list:
present iff the outcome is successful, carries `output_stats`, and the
file's original character count is positive. -/
def summaryReduction (orig : Nat) (o : Outcome) : Option ℚ :=
  if o.success then
    match o.output_stats with
    | some os =>
      if 0 < orig then some ((((orig : ℚ) - (os.chars : ℚ)) / (orig : ℚ)) * 100)
      else none
    | none => none
  else none

/-- The size reductions the summary averages, as a flat comprehension. -/
def collectedReductions (results : List FileResult) : List ℚ :=
  results.flatMap
    (fun r => r.optimizations.filterMap (summaryReduction r.original_stats.chars))

/-- Modelled from the spec (claim C7's words): the size reductions of *all*
outcomes that produced output stats, successful or not and with the zero
original-size case contributing `row_size_reduction orig chars = 0` rather
than being dropped. -/
def claimedReductions (results : List FileResult) : List ℚ :=
  results.flatMap
    (fun r => r.optimizations.filterMap (fun o =>
      match o.output_stats with
      | some os => some (row_size_reduction r.original_stats.chars os.chars)
      | none => none))

/-- The mean of `claimedReductions`, guarded the same way the code guards
its own mean. -/
def claimed_avg_size_reduction (results : List FileResult) : ℚ :=
  (claimedReductions results).sum
    / ((max (claimedReductions results).length 1 : Nat) : ℚ)

/-- Unrolling the inner accumulation loop over one file's outcomes. -/
lemma innerFold_eq (orig : Nat) (opts : List Outcome) :
    ∀ acc : Nat × ℚ × List ℚ,
      opts.foldl (summaryStep orig) acc
        = (acc.1 + (opts.filter (fun o => o.success)).length,
           acc.2.1 + ((opts.filter (fun o => o.success)).map
              (fun o => o.execution_time)).sum,
           acc.2.2 ++ opts.filterMap (summaryReduction orig)) := by
  induction opts with
  | nil => intro acc; simp
  | cons o opts ih =>
    intro acc
    rw [List.foldl_cons, ih]
    by_cases hs : o.success
    · rcases hos : o.output_stats with _ | os
      · simp only [summaryStep, if_pos hs, hos, List.filter_cons, List.filterMap_cons,
          summaryReduction, List.map_cons, List.sum_cons]
        refine Prod.ext ?_ (Prod.ext ?_ ?_) <;> simp [hs, hos] <;> ring
      · by_cases horig : 0 < orig
        · simp only [summaryStep, if_pos hs, hos, if_pos horig, List.filter_cons,
            List.filterMap_cons, summaryReduction, List.map_cons, List.sum_cons]
          refine Prod.ext ?_ (Prod.ext ?_ ?_) <;> simp [hs, hos, horig] <;> ring
        · simp only [summaryStep, if_pos hs, hos, if_neg horig, List.filter_cons,
            List.filterMap_cons, summaryReduction, List.map_cons, List.sum_cons]
          refine Prod.ext ?_ (Prod.ext ?_ ?_) <;> simp [hs, hos, horig] <;> ring
    · simp [summaryStep, hs, List.filter_cons, List.filterMap_cons, summaryReduction]

/-- Unrolling the whole accumulation loop of the executive summary. -/
lemma summaryFold_eq (results : List FileResult) :
    summaryFold results
      = ((successList results).length,
         ((successList results).map (fun o => o.execution_time)).sum,
         collectedReductions results) := by
  suffices h : ∀ acc : Nat × ℚ × List ℚ,
      results.foldl
        (fun acc r => r.optimizations.foldl (summaryStep r.original_stats.chars) acc)
        acc
      = (acc.1 + (successList results).length,
         acc.2.1 + ((successList results).map (fun o => o.execution_time)).sum,
         acc.2.2 ++ collectedReductions results) by
    have h0 := h (0, 0, [])
    simpa [summaryFold] using h0
  induction results with
  | nil => intro acc; simp [successList, collectedReductions]
  | cons r results ih =>
    intro acc
    rw [List.foldl_cons, ih, innerFold_eq]
    simp only [successList, collectedReductions, List.flatMap_cons, List.length_append,
      List.map_append, List.sum_append, List.append_assoc]
    refine Prod.ext ?_ (Prod.ext ?_ ?_) <;> simp <;> ring

/-- Claim C3: The size-reduction percentage of a detail-table row is
`(o - n) / o * 100` when the original character count `o` is positive and
`0` when `o = 0` — the division-by-zero branch is guarded, never reached. -/
theorem row_size_reduction_spec (o n : Nat) :
    (0 < o → row_size_reduction o n = (((o : ℚ) - (n : ℚ)) / (o : ℚ)) * 100) ∧
    row_size_reduction 0 n = 0 := by
  constructor
  · intro h
    rw [row_size_reduction, if_pos h]
  · rw [row_size_reduction]
    simp

/-- Witness for `row_size_reduction_spec`: a 1000-character input optimized
to 600 characters yields exactly a 40% reduction, and a 0-character input
yields 0 instead of a division fault. -/
theorem row_size_reduction_spec_witness :
    row_size_reduction 1000 600 = 40 ∧ row_size_reduction 0 7 = 0 := by
  constructor
  · rw [(row_size_reduction_spec 1000 600).1 (by norm_num)]
    norm_num
  · exact (row_size_reduction_spec 0 7).2

/-- Claim C7, amended: The executive summary's mean execution time averages
over successful outcomes only, and its mean size reduction averages over
the outcomes that are successful, carry output stats, *and* belong to a
file with positive original character count (an outcome with output stats
for a 0-character file is dropped from the mean, not counted as 0); both
means are guarded against empty sets, and for a nonempty file list the
success rate is `successes / (files × 4) × 100`. -/
theorem generate_report_summary_spec (results : List FileResult) :
    (generate_report_summary results).total_files = results.length ∧
    (generate_report_summary results).successful_optimizations
      = (successList results).length ∧
    (generate_report_summary results).avg_execution_time
      = ((successList results).map (fun o => o.execution_time)).sum
        / ((max (successList results).length 1 : Nat) : ℚ) ∧
    (generate_report_summary results).avg_size_reduction
      = (collectedReductions results).sum
        / ((max (collectedReductions results).length 1 : Nat) : ℚ) ∧
    (0 < results.length →
      (generate_report_summary results).success_rate
        = (((successList results).length : ℚ) / ((results.length * 4 : Nat) : ℚ)) * 100) := by
  unfold generate_report_summary
  rw [summaryFold_eq]
  refine ⟨rfl, rfl, rfl, rfl, fun hpos => ?_⟩
  have hmax : max (results.length * 4) 1 = results.length * 4 := by omega
  rw [hmax]

/-- Witness for `generate_report_summary_spec` at the concrete two-file
result list `mixedResults` (defined below), discharging the nonempty-list
hypothesis of the success-rate clause. -/
def successOutcomeWithStats (chars : Nat) : Outcome :=
  { success := true, execution_time := 1, stdout := some "", stderr := some "",
    error := none, mode := "LOCAL_ONLY", goal := "BALANCED",
    domain := "software", output_stats := some ⟨chars, 1, chars⟩ }

/-- Two files: one of 100 original characters whose successful outcome wrote
50 characters (a 50% reduction), and one of 0 original characters whose
successful outcome also carries output stats. -/
def mixedResults : List FileResult :=
  [{ file := "demo/examples/a.llm", original_stats := ⟨100, 3, 100⟩,
     optimizations := [successOutcomeWithStats 50] },
   { file := "demo/examples/empty.llm", original_stats := ⟨0, 0, 0⟩,
     optimizations := [successOutcomeWithStats 0] }]

/-- Witness for `generate_report_summary_spec`: instantiated at
`mixedResults`, whose two files make the success-rate hypothesis hold. -/
theorem generate_report_summary_spec_witness :
    (generate_report_summary mixedResults).success_rate
      = (((successList mixedResults).length : ℚ)
          / ((mixedResults.length * 4 : Nat) : ℚ)) * 100 ∧
    (generate_report_summary mixedResults).avg_size_reduction
      = (collectedReductions mixedResults).sum
        / ((max (collectedReductions mixedResults).length 1 : Nat) : ℚ) :=
  ⟨(generate_report_summary_spec mixedResults).2.2.2.2 (by decide),
   (generate_report_summary_spec mixedResults).2.2.2.1⟩

/-- Claim C7, counterexample: The claim that the mean size reduction is taken
over *all* outcomes that produced output stats fails at `mixedResults`: the
code drops the 0-character file's outcome and reports a mean of 50, while
the claimed population (with that outcome's reduction being 0 by the
guarded formula of C3) has mean 25. -/
theorem summary_mean_population_counterexample :
    (generate_report_summary mixedResults).avg_size_reduction = 50 ∧
    claimed_avg_size_reduction mixedResults = 25 ∧
    (generate_report_summary mixedResults).avg_size_reduction
      ≠ claimed_avg_size_reduction mixedResults := by
  refine ⟨?_, ?_, ?_⟩
  · norm_num [generate_report_summary, summaryFold, summaryStep, mixedResults,
      successOutcomeWithStats]
  · simp only [claimed_avg_size_reduction, claimedReductions, row_size_reduction,
      mixedResults, successOutcomeWithStats, List.flatMap_cons, List.flatMap_nil,
      List.filterMap_cons, List.filterMap_nil]
    norm_num
  · simp only [claimed_avg_size_reduction, claimedReductions, row_size_reduction,
      mixedResults, successOutcomeWithStats, List.flatMap_cons, List.flatMap_nil,
      List.filterMap_cons, List.filterMap_nil]
    norm_num [generate_report_summary, summaryFold, summaryStep, mixedResults,
      successOutcomeWithStats]

/-! ## Orchestration (`benchmark_file`, `run_full_benchmark`, `main`) -/

/-- The fixed configuration matrix of `benchmark_file`. -/
def configurations : List (String × String × String) :=
  [("LOCAL_ONLY", "BALANCED", "software"),
   ("LOCAL_ONLY", "REDUCE_TOKENS", "software"),
   ("LOCAL_ONLY", "IMPROVE_ACCURACY", "software"),
   ("LOCAL_ONLY", "DOMAIN_SPECIFIC", "software")]

/-- `MetaPromptBenchmark.benchmark_file`: run every configuration against
one file, in order; the subprocess environment of the `i`-th configuration
is supplied by `subs i`. -/
def benchmark_file (demo_dir : String) (subs : Nat → SubprocessEnv)
    (f : InputFile) : FileResult :=
  { file := f.path,
    original_stats := get_file_stats f.existsOnDisk f.statsOnDisk,
    optimizations := configurations.enum.map
      (fun p => (run_optimization demo_dir f p.2.1 p.2.2.1 p.2.2.2 (subs p.1)).outcome) }

/-- The world as seen by `run_full_benchmark` and `main`: whether the `cql`
executable exists (checked by the constructor), whether the examples
directory exists, the `.llm` files discovered in it, and the subprocess
environment of each (file index, configuration index) pair. -/
structure BenchEnv where
  demo_dir : String
  cql_executable_exists : Bool
  examples_dir_exists : Bool
  llm_files : List InputFile
  subs : Nat → Nat → SubprocessEnv

/-- Result of `run_full_benchmark`: either the assembled per-file results
(`Except.ok`, the report was generated and saved) or the message of the
`FileNotFoundError` it raises (`Except.error`); `report_written` records
whether `benchmark_report.md` was written. -/
structure BenchRun where
  result : Except String (List FileResult)
  report_written : Bool

/-- `MetaPromptBenchmark.run_full_benchmark`: abort if the examples
directory is missing, abort if it holds no `.llm` files, otherwise
benchmark every file and write the report. -/
def run_full_benchmark (env : BenchEnv) : BenchRun :=
  if !env.examples_dir_exists then
    { result := .error ("Examples directory not found: " ++ env.demo_dir ++ "/examples"),
      report_written := false }
  else if env.llm_files.isEmpty then
    { result := .error ("No .llm files found in " ++ env.demo_dir ++ "/examples"),
      report_written := false }
  else
    { result := .ok (env.llm_files.enum.map
        (fun p => benchmark_file env.demo_dir (env.subs p.1) p.2)),
      report_written := true }

/-- `main`: constructing `MetaPromptBenchmark` raises when the executable
is missing; any exception is caught, a `"Benchmark failed"` message is
printed and `1` is returned; otherwise `0`.  The returned pair is
(process exit code, whether the failure message was printed). -/
def main (env : BenchEnv) : Int × Bool :=
  if !env.cql_executable_exists then (1, true)
  else
    match (run_full_benchmark env).result with
    | .error _ => (1, true)
    | .ok _ => (0, false)

/-- Claim C9: With zero discovered `.llm` files (whether the examples
directory is missing or merely empty), the run aborts with a setup error
before any benchmarking (the outcome is the same for every subprocess
environment), no report file is written, and the process exits `1` after
printing a failure message. -/
theorem run_full_benchmark_no_files (env : BenchEnv)
    (hfiles : env.llm_files = []) (hexe : env.cql_executable_exists = true) :
    ((run_full_benchmark env).result
        = .error ("No .llm files found in " ++ env.demo_dir ++ "/examples") ∨
     (run_full_benchmark env).result
        = .error ("Examples directory not found: " ++ env.demo_dir ++ "/examples")) ∧
    (run_full_benchmark env).report_written = false ∧
    main env = (1, true) ∧
    (∀ subs' : Nat → Nat → SubprocessEnv,
      run_full_benchmark { env with subs := subs' } = run_full_benchmark env) := by
  by_cases hdir : env.examples_dir_exists
  · refine ⟨Or.inl ?_, ?_, ?_, fun subs' => ?_⟩ <;>
      simp [run_full_benchmark, main, hdir, hfiles, hexe]
  · have hdir' : env.examples_dir_exists = false := (Bool.not_eq_true _).mp hdir
    refine ⟨Or.inr ?_, ?_, ?_, fun subs' => ?_⟩ <;>
      simp [run_full_benchmark, main, hdir', hfiles, hexe]

/-- An environment with an existing executable, an existing but empty
examples directory, and inert subprocess environments. -/
def emptyExamplesEnv : BenchEnv :=
  { demo_dir := "demo", cql_executable_exists := true,
    examples_dir_exists := true, llm_files := [],
    subs := fun _ _ => timeoutEnv }

/-- Witness for `run_full_benchmark_no_files`: the concrete environment
`emptyExamplesEnv` aborts with the no-files setup error, writes no report,
and exits `1` with a printed message. -/
theorem run_full_benchmark_no_files_witness :
    ((run_full_benchmark emptyExamplesEnv).result
        = .error ("No .llm files found in " ++ emptyExamplesEnv.demo_dir ++ "/examples") ∨
     (run_full_benchmark emptyExamplesEnv).result
        = .error ("Examples directory not found: " ++ emptyExamplesEnv.demo_dir ++ "/examples")) ∧
    (run_full_benchmark emptyExamplesEnv).report_written = false ∧
    main emptyExamplesEnv = (1, true) := by
  have h := run_full_benchmark_no_files emptyExamplesEnv rfl rfl
  exact ⟨h.1, h.2.1, h.2.2.1⟩

end BenchmarkOptimization
